import Mathlib

/- Shallow embedding of the pure recommendation engine of src/weather_bot.py:
the functions get_health_recommendations, get_comprehensive_recommendations
and format_recommendations, followed by theorems settling the specification
claims about them. Python floats are modelled as rationals, the weather
dictionary as a structure whose optional air_quality key is an Option read
with a default of 0, and Python string operations (lower, substring
containment) as executable Lean functions. -/

/-- ASCII lowercasing of a string, as Python str.lower acts on basic latin
letters; all other characters are unchanged. -/
def pyLower (s : String) : String :=
  (s.toList.map Char.toLower).asString

/-- Python substring containment test, pat in s: some suffix of s starts
with pat. -/
def strContainsSub (s pat : String) : Bool :=
  s.toList.tails.any fun t => pat.toList.isPrefixOf t

/-- The weather reading dictionary consumed by the engine: keys temp,
humidity, description, air_quality (optional: the engine reads it with
dict.get and a default of 0) and wind_speed. -/
structure WeatherData where
  temp : Rat
  humidity : Rat
  description : String
  air_quality : Option Int
  wind_speed : Rat

/-- The user profile dictionary: three lists of free-text labels. -/
structure UserProfile where
  health_conditions : List String
  weather_sensitivities : List String
  allergies : List String

/-- The categorized recommendations dictionary built by
get_comprehensive_recommendations: four ordered lists of advisory strings. -/
structure Recommendations where
  health_advice : List String
  activities : List String
  food_suggestions : List String
  general_advice : List String

/-- Body of the health-conditions loop of get_health_recommendations
(weather_bot.py lines 53 to 69): the strings appended for one entry of the
health_conditions list. -/
def health_condition_recs (temp humidity : Rat) (conditions : String)
    (condition : String) : List String :=
  if pyLower condition = "asthma" then
    (if humidity > 70 then
      ["⚠️ High humidity may affect your asthma. Consider staying indoors."] else []) ++
    (if strContainsSub conditions "rain" || strContainsSub conditions "mist" then
      ["🌧️ Damp conditions may trigger asthma. Keep inhaler handy."] else [])
  else if pyLower condition = "heart condition" then
    (if temp > 30 then
      ["❤️ High temperature may strain your heart. Stay in air-conditioned spaces."]
     else if temp < 5 then
      ["❄️ Cold weather can affect blood pressure. Stay warm and avoid overexertion."]
     else [])
  else if pyLower condition = "diabetes" then
    (if temp > 30 then
      ["📊 Heat can affect blood sugar levels. Check levels more frequently."] else []) ++
    (if humidity > 80 then
      ["💧 High humidity can affect insulin absorption. Monitor closely."] else [])
  else []

/-- Body of the weather-sensitivities loop (lines 72 to 81): the strings
appended for one entry of the weather_sensitivities list. -/
def weather_sensitivity_recs (temp humidity : Rat) (air_quality : Int)
    (sensitivity : String) : List String :=
  if pyLower sensitivity = "cold" ∧ temp < 10 then
    ["🌡️ Temperature is low and you're sensitive to cold. Bundle up well."]
  else if pyLower sensitivity = "heat" ∧ temp > 28 then
    ["🌞 Temperature is high and you're heat-sensitive. Stay hydrated and in shade."]
  else if pyLower sensitivity = "humidity" ∧ humidity > 70 then
    ["💧 High humidity detected. Use dehumidifier indoors if possible."]
  else if pyLower sensitivity = "air quality" ∧ air_quality > 100 then
    ["😷 Poor air quality. Consider wearing a mask outdoors."]
  else []

/-- Body of the allergies loop (lines 84 to 91): the strings appended for
one entry of the allergies list. -/
def allergy_recs (conditions : String) (allergy : String) : List String :=
  if pyLower allergy = "pollen" then
    (if strContainsSub conditions "clear" || strContainsSub conditions "sunny" then
      ["🌼 High pollen risk today. Take antihistamines if needed."] else [])
  else if pyLower allergy = "dust" then
    (if strContainsSub conditions "windy" then
      ["💨 Windy conditions may stir up dust. Wear a mask if needed."] else [])
  else []

/-- Lines 45 to 93 of weather_bot.py: personalized health recommendations.
A falsy (absent) profile yields no recommendations; the three loops append
in order, so the result is the concatenation of the three passes. -/
def get_health_recommendations (weather_data : WeatherData)
    (user_profile : Option UserProfile) : List String :=
  let temp := weather_data.temp
  let humidity := weather_data.humidity
  let conditions := pyLower weather_data.description
  match user_profile with
  | none => []
  | some p =>
    (p.health_conditions.flatMap fun condition =>
        health_condition_recs temp humidity conditions condition) ++
    (p.weather_sensitivities.flatMap fun sensitivity =>
        weather_sensitivity_recs temp humidity
          (weather_data.air_quality.getD 0) sensitivity) ++
    (p.allergies.flatMap fun allergy =>
        allergy_recs conditions allergy)

/-- Hot-band activities, lines 110 to 116 (temp above 35). -/
def hot_activities : List String :=
  ["❌ Avoid strenuous outdoor activities",
   "✅ Indoor swimming",
   "✅ Indoor gym workouts",
   "✅ Mall walking",
   "✅ Indoor sports"]

/-- Hot-band food suggestions, lines 117 to 123. -/
def hot_food : List String :=
  ["🥤 Drink plenty of water (at least 3-4 liters)",
   "🥗 Light meals with high water content",
   "🍎 Fresh fruits and vegetables",
   "🧂 Electrolyte-rich drinks",
   "❌ Avoid heavy, spicy foods"]

/-- Hot-band general advice, lines 124 to 129. -/
def hot_general : List String :=
  ["⏰ Plan activities early morning or late evening",
   "👕 Wear light, breathable clothing",
   "🧴 Use sunscreen (SPF 50+)",
   "🕶 Wear sunglasses and a hat"]

/-- Warm-band activities, lines 131 to 136 (25 to 35 inclusive). -/
def warm_activities : List String :=
  ["✅ Swimming",
   "✅ Early morning/late evening walks",
   "✅ Beach activities (with proper protection)",
   "⚠️ Moderate outdoor activities"]

/-- Warm-band food suggestions, lines 137 to 142. -/
def warm_food : List String :=
  ["🥤 Stay well hydrated",
   "🥗 Fresh salads",
   "🍊 Seasonal fruits",
   "🥤 Sports drinks for outdoor activities"]

/-- Mild-band activities, lines 144 to 149 (the else branch). -/
def mild_activities : List String :=
  ["✅ Most outdoor activities are comfortable",
   "✅ Walking, jogging, cycling",
   "✅ Outdoor sports",
   "✅ Sightseeing"]

/-- Mild-band food suggestions, lines 150 to 154. -/
def mild_food : List String :=
  ["🥤 Regular water intake",
   "🍽️ Regular balanced meals",
   "🥪 Pack snacks for outdoor activities"]

/-- Stage-1 activities keyed by temperature, lines 109 to 154. -/
def band_activities (temp : Rat) : List String :=
  if temp > 35 then hot_activities
  else if 25 ≤ temp ∧ temp ≤ 35 then warm_activities
  else mild_activities

/-- Stage-1 food suggestions keyed by temperature, lines 109 to 154. -/
def band_food (temp : Rat) : List String :=
  if temp > 35 then hot_food
  else if 25 ≤ temp ∧ temp ≤ 35 then warm_food
  else mild_food

/-- Stage-1 general advice keyed by temperature: only the hot band adds
general advice (lines 124 to 129). -/
def band_general (temp : Rat) : List String :=
  if temp > 35 then hot_general
  else if 25 ≤ temp ∧ temp ≤ 35 then []
  else []

/-- Rain-branch general advice, lines 162 to 167. -/
def rain_general : List String :=
  ["☔ Carry an umbrella",
   "🧥 Wear waterproof clothing",
   "👟 Wear appropriate footwear"]

/-- Clear-branch general advice, lines 168 to 173. -/
def clear_general : List String :=
  ["🕶 Wear sunglasses",
   "🧴 Apply sunscreen",
   "👒 Wear a hat for sun protection"]

/-- Keyword test of the air-quality activity filter (lines 178 to 179):
the lowercased activity text contains outdoor, outside or beach. -/
def mentions_outdoor (act : String) : Bool :=
  ["outdoor", "outside", "beach"].any fun outdoor =>
    strContainsSub (pyLower act) outdoor

/-- Lines 95 to 181 of weather_bot.py: the recommendation engine. The
pipeline order of the source is kept: temperature band, profile health
advice, condition-keyword general advice, then the global air-quality
override that appends the mask advisory and filters the activities. -/
def get_comprehensive_recommendations (weather_data : WeatherData)
    (user_profile : Option UserProfile) : Recommendations :=
  let temp := weather_data.temp
  let conditions := pyLower weather_data.description
  let activities := band_activities temp
  let food_suggestions := band_food temp
  let general0 := band_general temp
  let health0 : List String :=
    match user_profile with
    | some p => get_health_recommendations weather_data (some p)
    | none => []
  let general_advice :=
    general0 ++
      (if strContainsSub conditions "rain" then rain_general
       else if strContainsSub conditions "clear" then clear_general
       else [])
  let air_quality := weather_data.air_quality.getD 0
  let health_advice :=
    health0 ++
      (if air_quality > 100 then
        ["😷 Consider wearing a mask due to poor air quality"] else [])
  let activities :=
    if air_quality > 100 then
      activities.filter fun act => !(mentions_outdoor act)
    else activities
  { health_advice := health_advice, activities := activities,
    food_suggestions := food_suggestions, general_advice := general_advice }

/-- Lines 183 to 205 of weather_bot.py: the advisory formatter. Each truthy
(nonempty) category appends its heading and entries to the sections list;
the first three categories also append an empty separator line; the final
string joins the sections with newlines. -/
def format_recommendations (recommendations : Recommendations) : String :=
  let sections : List String :=
    (if recommendations.health_advice.isEmpty then [] else
      "🏥 Health Recommendations:" :: (recommendations.health_advice ++ [""])) ++
    (if recommendations.activities.isEmpty then [] else
      "🏃 Activity Recommendations:" :: (recommendations.activities ++ [""])) ++
    (if recommendations.food_suggestions.isEmpty then [] else
      "🍽️ Food & Hydration Advice:" :: (recommendations.food_suggestions ++ [""])) ++
    (if recommendations.general_advice.isEmpty then [] else
      "💡 General Advice:" :: recommendations.general_advice)
  String.intercalate "\n" sections

/-- Formatter as the frozen claim words it: blocks for the four categories
in fixed order, each nonempty block being its heading followed by its
entries, with one blank separator line between consecutive rendered blocks
and none after the last rendered block. -/
def format_claimed (r : Recommendations) : String :=
  let blocks : List (List String) :=
    (if r.health_advice.isEmpty then [] else
      ["🏥 Health Recommendations:" :: r.health_advice]) ++
    (if r.activities.isEmpty then [] else
      ["🏃 Activity Recommendations:" :: r.activities]) ++
    (if r.food_suggestions.isEmpty then [] else
      ["🍽️ Food & Hydration Advice:" :: r.food_suggestions]) ++
    (if r.general_advice.isEmpty then [] else
      ["💡 General Advice:" :: r.general_advice])
  String.intercalate "\n" (List.intercalate [""] blocks)

/-- Formatter as the amended claim words it: each of the health, activities
and food sections, when populated, renders as heading, entries, then one
blank separator line, even when it is the last rendered section; the
general section, when populated, renders as heading and entries with no
trailing separator; an empty category contributes nothing. -/
def format_spec_amended (r : Recommendations) : String :=
  String.intercalate "\n"
    ((if r.health_advice.isEmpty then [] else
        ("🏥 Health Recommendations:" :: r.health_advice) ++ [""]) ++
     (if r.activities.isEmpty then [] else
        ("🏃 Activity Recommendations:" :: r.activities) ++ [""]) ++
     (if r.food_suggestions.isEmpty then [] else
        ("🍽️ Food & Hydration Advice:" :: r.food_suggestions) ++ [""]) ++
     (if r.general_advice.isEmpty then [] else
        "💡 General Advice:" :: r.general_advice))

/-- A raw weather dictionary in which any key may be missing. -/
structure RawWeatherData where
  temp : Option Rat
  humidity : Option Rat
  description : Option String
  air_quality : Option Int
  wind_speed : Option Rat

/-- Reading the raw weather dictionary exactly as the engine accesses it:
the required keys temp, humidity and description are indexed directly and
a missing one raises KeyError; air_quality is read with dict.get and a
default, and wind_speed is never read by the engine. -/
def readWeatherData (raw : RawWeatherData) : Except String WeatherData :=
  match raw.temp, raw.humidity, raw.description with
  | some t, some h, some d =>
      Except.ok { temp := t, humidity := h, description := d,
                  air_quality := raw.air_quality,
                  wind_speed := raw.wind_speed.getD 0 }
  | _, _, _ => Except.error "KeyError"

/-- End-to-end checked pipeline: read the raw reading, generate the
recommendations and format them. -/
def generate_and_format (raw : RawWeatherData) (user_profile : Option UserProfile) :
    Except String (Recommendations × String) :=
  (readWeatherData raw).map fun weather_data =>
    let recs := get_comprehensive_recommendations weather_data user_profile
    (recs, format_recommendations recs)

lemma generate_food (wd : WeatherData) (p : Option UserProfile) :
    (get_comprehensive_recommendations wd p).food_suggestions = band_food wd.temp := rfl

lemma generate_activities (wd : WeatherData) (p : Option UserProfile) :
    (get_comprehensive_recommendations wd p).activities
      = (if wd.air_quality.getD 0 > 100 then
          (band_activities wd.temp).filter fun act => !(mentions_outdoor act)
         else band_activities wd.temp) := rfl

lemma generate_health_none (wd : WeatherData) :
    (get_comprehensive_recommendations wd none).health_advice
      = (if wd.air_quality.getD 0 > 100 then
          ["😷 Consider wearing a mask due to poor air quality"] else []) := rfl

lemma generate_health_some (wd : WeatherData) (q : UserProfile) :
    (get_comprehensive_recommendations wd (some q)).health_advice
      = get_health_recommendations wd (some q) ++
        (if wd.air_quality.getD 0 > 100 then
          ["😷 Consider wearing a mask due to poor air quality"] else []) := rfl

lemma generate_wind_irrelevant (t h : Rat) (d : String) (a : Option Int)
    (w1 w2 : Rat) (p : Option UserProfile) :
    get_comprehensive_recommendations ⟨t, h, d, a, w1⟩ p
      = get_comprehensive_recommendations ⟨t, h, d, a, w2⟩ p := by
  cases p <;> rfl

/-- C1 counterexample: at temperature 40 with airQualityIndex 150 the
global air-quality filter removes the avoid-strenuous entry (its text
contains the keyword outdoor), so the claim as stated fails. -/
theorem c1_counterexample :
    "❌ Avoid strenuous outdoor activities" ∉
      (get_comprehensive_recommendations ⟨40, 50, "clear", some 150, 0⟩ none).activities := by
  decide

/-- C1 amended: for every reading with temperature above 35 and every
optional profile, the activities contain the avoid-strenuous entry
whenever the airQualityIndex is at most 100, and in all cases no activity
entry mentions sightseeing. -/
theorem c1_hot_band (wd : WeatherData) (p : Option UserProfile)
    (ht : wd.temp > 35) :
    (wd.air_quality.getD 0 ≤ 100 →
      "❌ Avoid strenuous outdoor activities" ∈
        (get_comprehensive_recommendations wd p).activities) ∧
    (∀ a ∈ (get_comprehensive_recommendations wd p).activities,
      strContainsSub (pyLower a) "sightseeing" = false) := by
  have hband : band_activities wd.temp = hot_activities := if_pos ht
  constructor
  · intro hq
    rw [generate_activities, if_neg (not_lt.mpr hq), hband]
    decide
  · intro a ha
    rw [generate_activities] at ha
    have ha' : a ∈ band_activities wd.temp := by
      split at ha
      · exact List.mem_of_mem_filter ha
      · exact ha
    rw [hband] at ha'
    revert ha'
    have hall : ∀ x ∈ hot_activities, strContainsSub (pyLower x) "sightseeing" = false := by
      decide
    exact hall a

/-- C1 witness: a hot reading with no air-quality override keeps the
avoid-strenuous entry and has no sightseeing entry. -/
theorem c1_hot_band_witness :
    "❌ Avoid strenuous outdoor activities" ∈
      (get_comprehensive_recommendations ⟨40, 50, "clear", none, 0⟩ none).activities ∧
    (∀ a ∈ (get_comprehensive_recommendations ⟨40, 50, "clear", none, 0⟩ none).activities,
      strContainsSub (pyLower a) "sightseeing" = false) :=
  ⟨(c1_hot_band ⟨40, 50, "clear", none, 0⟩ none (by decide)).1 (by decide),
   (c1_hot_band ⟨40, 50, "clear", none, 0⟩ none (by decide)).2⟩

/-- C2: when airQualityIndex exceeds 100 the returned activities are
exactly the stage-1 temperature-band activities filtered by the outdoor
keyword test, so non-matching entries survive unchanged in their original
relative order, and no surviving entry case-insensitively mentions
outdoor, outside, or beach. -/
theorem c2_outdoor_filter (wd : WeatherData) (p : Option UserProfile)
    (haq : wd.air_quality.getD 0 > 100) :
    (get_comprehensive_recommendations wd p).activities
      = ((band_activities wd.temp).filter fun act => !(mentions_outdoor act)) ∧
    (∀ a ∈ (get_comprehensive_recommendations wd p).activities,
      mentions_outdoor a = false) := by
  have h1 : (get_comprehensive_recommendations wd p).activities
      = (band_activities wd.temp).filter fun act => !(mentions_outdoor act) := by
    rw [generate_activities, if_pos haq]
  refine ⟨h1, ?_⟩
  intro a ha
  rw [h1, List.mem_filter] at ha
  simpa using ha.2

/-- C2 witness: a warm reading with airQualityIndex 150 keeps exactly the
non-outdoor entries of the warm band, in order. -/
theorem c2_outdoor_filter_witness :
    (get_comprehensive_recommendations ⟨30, 50, "cloudy", some 150, 0⟩ none).activities
      = ((band_activities 30).filter fun act => !(mentions_outdoor act)) ∧
    (get_comprehensive_recommendations ⟨30, 50, "cloudy", some 150, 0⟩ none).activities
      = ["✅ Swimming", "✅ Early morning/late evening walks"] :=
  ⟨(c2_outdoor_filter ⟨30, 50, "cloudy", some 150, 0⟩ none (by decide)).1, by decide⟩

/-- C3: with an absent profile the health advice is empty unless the
air-quality override fires (airQualityIndex above 100, default 0), in
which case it is exactly the single mask advisory entry. -/
theorem c3_absent_profile_health (wd : WeatherData) :
    (wd.air_quality.getD 0 ≤ 100 →
      (get_comprehensive_recommendations wd none).health_advice = []) ∧
    (wd.air_quality.getD 0 > 100 →
      (get_comprehensive_recommendations wd none).health_advice
        = ["😷 Consider wearing a mask due to poor air quality"]) := by
  constructor
  · intro hq
    rw [generate_health_none, if_neg (not_lt.mpr hq)]
  · intro hq
    rw [generate_health_none, if_pos hq]

/-- C3 witness: concrete readings on both sides of the threshold. -/
theorem c3_absent_profile_health_witness :
    (get_comprehensive_recommendations ⟨20, 50, "cloudy", none, 0⟩ none).health_advice = [] ∧
    (get_comprehensive_recommendations ⟨20, 50, "cloudy", some 150, 0⟩ none).health_advice
      = ["😷 Consider wearing a mask due to poor air quality"] :=
  ⟨(c3_absent_profile_health ⟨20, 50, "cloudy", none, 0⟩).1 (by decide),
   (c3_absent_profile_health ⟨20, 50, "cloudy", some 150, 0⟩).2 (by decide)⟩

/-- C4: exactly one of the three temperature-band food templates appears,
keyed solely by temperature: hot for temperature above 35, warm for 25 to
35 inclusive, mild below 25 (including negative values); the three bands
are exhaustive and mutually exclusive. -/
theorem c4_food_bands (wd : WeatherData) (p : Option UserProfile) :
    ((get_comprehensive_recommendations wd p).food_suggestions = hot_food ↔ wd.temp > 35) ∧
    ((get_comprehensive_recommendations wd p).food_suggestions = warm_food ↔
        (25 ≤ wd.temp ∧ wd.temp ≤ 35)) ∧
    ((get_comprehensive_recommendations wd p).food_suggestions = mild_food ↔ wd.temp < 25) := by
  have hneq1 : hot_food ≠ warm_food := by decide
  have hneq2 : hot_food ≠ mild_food := by decide
  have hneq3 : warm_food ≠ mild_food := by decide
  rw [generate_food]
  unfold band_food
  by_cases h1 : wd.temp > 35
  · rw [if_pos h1]
    refine ⟨⟨fun _ => h1, fun _ => rfl⟩, ?_, ?_⟩
    · exact ⟨fun he => absurd he hneq1, fun hw => absurd hw.2 (not_le.mpr h1)⟩
    · exact ⟨fun he => absurd he hneq2, fun hm => absurd (hm.trans (by norm_num)) (not_lt.mpr (le_of_lt h1))⟩
  · rw [if_neg h1]
    have hle : wd.temp ≤ 35 := not_lt.mp h1
    by_cases h2 : 25 ≤ wd.temp ∧ wd.temp ≤ 35
    · rw [if_pos h2]
      refine ⟨?_, ⟨fun _ => h2, fun _ => rfl⟩, ?_⟩
      · exact ⟨fun he => absurd he.symm hneq1, fun h35 => absurd h35 h1⟩
      · exact ⟨fun he => absurd he hneq3, fun hm => absurd hm (not_lt.mpr h2.1)⟩
    · rw [if_neg h2]
      have hm : wd.temp < 25 := by
        by_contra hge
        push_neg at hge
        exact h2 ⟨hge, hle⟩
      refine ⟨?_, ?_, ⟨fun _ => hm, fun _ => rfl⟩⟩
      · exact ⟨fun he => absurd he.symm hneq2, fun h35 => absurd h35 h1⟩
      · exact ⟨fun he => absurd he.symm hneq3, fun hw => absurd hw h2⟩

/-- C5: the heart-condition rule appends at most one warning per
evaluation, the hot branch exactly when temperature is above 30, otherwise
the cold branch exactly when temperature is below 5; with the singleton
heart-condition profile and no air-quality override this is exactly the
resulting health advice. -/
theorem c5_heart_condition (wd : WeatherData) (c : String)
    (hc : pyLower c = "heart condition") (haq : wd.air_quality.getD 0 ≤ 100) :
    (health_condition_recs wd.temp wd.humidity (pyLower wd.description) c
      = (if wd.temp > 30 then
          ["❤️ High temperature may strain your heart. Stay in air-conditioned spaces."]
         else if wd.temp < 5 then
          ["❄️ Cold weather can affect blood pressure. Stay warm and avoid overexertion."]
         else [])) ∧
    (health_condition_recs wd.temp wd.humidity (pyLower wd.description) c).length ≤ 1 ∧
    (get_comprehensive_recommendations wd (some ⟨[c], [], []⟩)).health_advice
      = health_condition_recs wd.temp wd.humidity (pyLower wd.description) c := by
  have h1 : health_condition_recs wd.temp wd.humidity (pyLower wd.description) c
      = (if wd.temp > 30 then
          ["❤️ High temperature may strain your heart. Stay in air-conditioned spaces."]
         else if wd.temp < 5 then
          ["❄️ Cold weather can affect blood pressure. Stay warm and avoid overexertion."]
         else []) := by
    unfold health_condition_recs
    rw [hc]
    rw [if_neg (by decide), if_pos rfl]
  refine ⟨h1, ?_, ?_⟩
  · rw [h1]
    by_cases h30 : wd.temp > 30
    · rw [if_pos h30]; exact Nat.le_refl 1
    · rw [if_neg h30]
      by_cases h5 : wd.temp < 5
      · rw [if_pos h5]; exact Nat.le_refl 1
      · rw [if_neg h5]; exact Nat.zero_le 1
  · rw [generate_health_some, if_neg (not_lt.mpr haq), List.append_nil]
    simp [get_health_recommendations]

/-- C5 witness: the reading with temperature 2 and the heart-condition
profile gets exactly the cold-branch warning. -/
theorem c5_heart_condition_witness :
    (get_comprehensive_recommendations ⟨2, 40, "clear", some 0, 0⟩
        (some ⟨["heart condition"], [], []⟩)).health_advice
      = ["❄️ Cold weather can affect blood pressure. Stay warm and avoid overexertion."] := by
  have h := c5_heart_condition ⟨2, 40, "clear", some 0, 0⟩ "heart condition"
    (by decide) (by decide)
  rw [h.2.2, h.1]
  decide

/-- C6 counterexample: with only the health category populated, the code
still emits a blank separator line after the last rendered section, so the
output differs from the rendering the claim describes. -/
theorem c6_counterexample :
    format_recommendations ⟨["x"], [], [], []⟩ = "🏥 Health Recommendations:\nx\n" ∧
    format_claimed ⟨["x"], [], [], []⟩ = "🏥 Health Recommendations:\nx" ∧
    format_recommendations ⟨["x"], [], [], []⟩ ≠ format_claimed ⟨["x"], [], [], []⟩ := by
  refine ⟨by decide, by decide, by decide⟩

/-- C6 amended: the formatter renders the categories in the fixed order
health, activities, food, general; each nonempty category contributes a
heading line and its entries one per line and an empty one contributes
nothing; a blank separator line follows each populated health, activities
or food section, even when it is the last rendered section, while the
general section gets no trailing separator; all categories empty yields
the empty string. -/
theorem c6_formatter (r : Recommendations) :
    format_recommendations r = format_spec_amended r ∧
    (r.health_advice = [] → r.activities = [] → r.food_suggestions = [] →
      r.general_advice = [] → format_recommendations r = "") := by
  constructor
  · simp only [format_recommendations, format_spec_amended, List.cons_append]
  · intro h1 h2 h3 h4
    simp [format_recommendations, h1, h2, h3, h4]
    rfl

/-- C6 witness: the empty advisory renders as the empty string. -/
theorem c6_formatter_witness :
    format_recommendations ⟨[], [], [], []⟩ = "" :=
  (c6_formatter ⟨[], [], [], []⟩).2 rfl rfl rfl rfl

/-- C7: for every raw reading carrying the required keys temp, humidity
and description, and every optional profile, the checked pipeline of
generation and formatting returns a value and never an error: no error
branch is reachable under the precondition. -/
theorem c7_no_exceptions (raw : RawWeatherData) (p : Option UserProfile)
    (h1 : raw.temp.isSome = true) (h2 : raw.humidity.isSome = true)
    (h3 : raw.description.isSome = true) :
    ∃ recs fmt, generate_and_format raw p = Except.ok (recs, fmt) := by
  rcases raw with ⟨ot, oh, od, aq, ws⟩
  cases ot with
  | none => simp at h1
  | some t =>
    cases oh with
    | none => simp at h2
    | some h =>
      cases od with
      | none => simp at h3
      | some d => exact ⟨_, _, rfl⟩

/-- C7 witness: a concrete well-formed raw reading succeeds. -/
theorem c7_no_exceptions_witness :
    ∃ recs fmt,
      generate_and_format ⟨some 20, some 50, some "light rain", none, some 3⟩ none
        = Except.ok (recs, fmt) :=
  c7_no_exceptions ⟨some 20, some 50, some "light rain", none, some 3⟩ none rfl rfl rfl

/-- C8: two invocations of the engine on identical inputs yield advisories
whose four category sequences are identical in content and order; the
engine is a pure function of its two arguments with no hidden state. -/
theorem c8_deterministic (wd : WeatherData) (p : Option UserProfile)
    (r1 r2 : Recommendations)
    (h1 : r1 = get_comprehensive_recommendations wd p)
    (h2 : r2 = get_comprehensive_recommendations wd p) :
    r1.health_advice = r2.health_advice ∧ r1.activities = r2.activities ∧
    r1.food_suggestions = r2.food_suggestions ∧ r1.general_advice = r2.general_advice := by
  subst h1
  subst h2
  exact ⟨rfl, rfl, rfl, rfl⟩

/-- C8 witness: two runs on a concrete input agree on all categories. -/
theorem c8_deterministic_witness :
    (get_comprehensive_recommendations ⟨20, 50, "clear", none, 0⟩ none).health_advice
      = (get_comprehensive_recommendations ⟨20, 50, "clear", none, 0⟩ none).health_advice ∧
    (get_comprehensive_recommendations ⟨20, 50, "clear", none, 0⟩ none).activities
      = (get_comprehensive_recommendations ⟨20, 50, "clear", none, 0⟩ none).activities ∧
    (get_comprehensive_recommendations ⟨20, 50, "clear", none, 0⟩ none).food_suggestions
      = (get_comprehensive_recommendations ⟨20, 50, "clear", none, 0⟩ none).food_suggestions ∧
    (get_comprehensive_recommendations ⟨20, 50, "clear", none, 0⟩ none).general_advice
      = (get_comprehensive_recommendations ⟨20, 50, "clear", none, 0⟩ none).general_advice :=
  c8_deterministic ⟨20, 50, "clear", none, 0⟩ none _ _ rfl rfl

/-- C9: two readings agreeing on temperature, humidity, description and
airQualityIndex but differing in windSpeed produce identical advisories
for every optional profile: windSpeed never influences rule evaluation. -/
theorem c9_windspeed_noninterference (wd1 wd2 : WeatherData) (p : Option UserProfile)
    (ht : wd1.temp = wd2.temp) (hh : wd1.humidity = wd2.humidity)
    (hd : wd1.description = wd2.description) (ha : wd1.air_quality = wd2.air_quality)
    (hw : wd1.wind_speed ≠ wd2.wind_speed) :
    get_comprehensive_recommendations wd1 p = get_comprehensive_recommendations wd2 p := by
  rcases wd1 with ⟨t1, hm1, d1, a1, w1⟩
  rcases wd2 with ⟨t2, hm2, d2, a2, w2⟩
  obtain rfl : t1 = t2 := ht
  obtain rfl : hm1 = hm2 := hh
  obtain rfl : d1 = d2 := hd
  obtain rfl : a1 = a2 := ha
  exact generate_wind_irrelevant t1 hm1 d1 a1 w1 w2 p

/-- C9 witness: two concrete readings differing only in windSpeed produce
the same advisory. -/
theorem c9_windspeed_noninterference_witness :
    get_comprehensive_recommendations ⟨20, 50, "clear", none, 0⟩ none
      = get_comprehensive_recommendations ⟨20, 50, "clear", none, 7⟩ none :=
  c9_windspeed_noninterference ⟨20, 50, "clear", none, 0⟩ ⟨20, 50, "clear", none, 7⟩ none
    rfl rfl rfl rfl (by decide)

/-- C10: for a fixed reading, the activities, food and general-advice
categories are the same whether the profile is absent or any profile is
supplied; the profile only influences the health-advice category. -/
theorem c10_profile_frame (wd : WeatherData) (p : UserProfile) :
    (get_comprehensive_recommendations wd (some p)).activities
      = (get_comprehensive_recommendations wd none).activities ∧
    (get_comprehensive_recommendations wd (some p)).food_suggestions
      = (get_comprehensive_recommendations wd none).food_suggestions ∧
    (get_comprehensive_recommendations wd (some p)).general_advice
      = (get_comprehensive_recommendations wd none).general_advice :=
  ⟨rfl, rfl, rfl⟩
